import Mathlib

/-!
# Reminest Windows runner: bootstrap sequence of `wWinMain`

A shallow embedding of `windows/runner/main.cpp`.  The program is a straight
line of operating-system calls followed by the blocking message loop, so it is
modelled as a function from the outcomes the operating system delivers
(`OS`) and the build configuration (`debug`, the `_DEBUG` switch) to the
sequence of calls performed (`Result.trace`) and the value returned
(`Result.exit`).
-/

namespace Reminest

/-! ## Constants of the platform headers -/

/-- The value of `EXIT_SUCCESS` in `<stdlib.h>`. -/
def EXIT_SUCCESS : Int := 0

/-- The value of `EXIT_FAILURE` in `<stdlib.h>`. -/
def EXIT_FAILURE : Int := 1

/-- The value of `LOAD_LIBRARY_SEARCH_DEFAULT_DIRS` in `<libloaderapi.h>`. -/
def LOAD_LIBRARY_SEARCH_DEFAULT_DIRS : Nat := 0x1000

/-- The value of `PROCESS_DEP_ENABLE` in `<winbase.h>`. -/
def PROCESS_DEP_ENABLE : Nat := 0x1

/-- The value of `PROCESS_DEP_DISABLE_ATL_THUNK_EMULATION` in `<winbase.h>`. -/
def PROCESS_DEP_DISABLE_ATL_THUNK_EMULATION : Nat := 0x2

/-- The value of `COINIT_APARTMENTTHREADED` in `<objbase.h>`. -/
def COINIT_APARTMENTTHREADED : Nat := 0x2

/-- The `FAILED(hr)` test of `<winerror.h>`: an `HRESULT` is a failure when it is negative. -/
def FAILED (hr : Int) : Bool := decide (hr < 0)

/-! ## Data model -/

/-- The fields of a Win32 `MSG` that identify a message. -/
structure MSG where
  hwnd : Nat
  message : Nat
  wParam : Nat
  lParam : Int
  deriving DecidableEq, Repr

/-- The three C standard streams rebound by `freopen_s`. -/
inductive CStream where
  | stdout
  | stderr
  | stdin
  deriving DecidableEq, Repr

/-- The six C++ stream objects whose error state `SetupDebugConsole` clears. -/
inductive IoStream where
  | wcout
  | cout
  | wcerr
  | cerr
  | wcin
  | cin
  deriving DecidableEq, Repr

/-- `Win32Window::Point`. -/
structure Point where
  x : Nat
  y : Nat
  deriving DecidableEq, Repr

/-- `Win32Window::Size`. -/
structure Size where
  width : Nat
  height : Nat
  deriving DecidableEq, Repr

/-- One call made by the program, recorded with its arguments and, where the
operating system answers, with the answer. -/
inductive Event where
  | SetProcessDPIAware (ret : Bool)
  | AllocConsole (ret : Bool)
  | freopen_s (stream : CStream) (file : String) (mode : String)
  | sync_with_stdio (sync : Bool)
  | clear (stream : IoStream)
  | SetConsoleTitle (title : String)
  | cout (line : String)
  | cerr (line : String)
  | SetDefaultDllDirectories (flags : Nat) (ret : Bool)
  | SetProcessDEPPolicy (flags : Nat) (ret : Bool)
  | CoInitializeEx (coInit : Nat) (hr : Int)
  | DartProject (path : String)
  | GetCommandLineArguments
  | set_dart_entrypoint_arguments (args : List String)
  | FlutterWindow
  | Create (title : String) (origin : Point) (size : Size) (ret : Bool)
  | SetQuitOnClose (quit : Bool)
  | GetMessage (ret : Int)
  | TranslateMessage (msg : MSG)
  | DispatchMessage (msg : MSG)
  | CoUninitialize
  | Sleep (ms : Nat)
  deriving DecidableEq, Repr

/-- What one call of `GetMessage(&msg, nullptr, 0, 0)` delivers: the returned
`BOOL` (`0` for the quit signal, `-1` for an error, non-zero otherwise) and
what the call stored into `msg`, if it stored anything. -/
structure Delivery where
  ret : Int
  stored : Option MSG

/-- The outcomes the operating system delivers to one run of the program. -/
structure OS where
  /-- Result of `SetProcessDPIAware()`. -/
  dpiAware : Bool
  /-- Result of `AllocConsole()`. -/
  allocConsole : Bool
  /-- Result of `SetDefaultDllDirectories(..)`. -/
  dllDirectories : Bool
  /-- Result of `SetProcessDEPPolicy(..)`. -/
  depPolicy : Bool
  /-- The `HRESULT` of `CoInitializeEx(..)`. -/
  hr : Int
  /-- The arguments of the process command line, the executable path first. -/
  argv : List String
  /-- Result of `window.Create(..)`. -/
  create : Bool
  /-- The indeterminate initial contents of the local `msg`. -/
  msg0 : MSG
  /-- The `n`-th call of `GetMessage` delivers `messages n`. -/
  messages : Nat → Delivery

/-- The four parameters of `wWinMain`. -/
structure Params where
  inst : Nat
  prev : Nat
  command_line : String
  show_command : Int

/-- Outcome of a run: the calls made so far, in order, and the value returned
by `wWinMain` after the last of them; `exit = none` means the run is still
inside the message loop. -/
structure Result where
  trace : List Event
  exit : Option Int
  deriving DecidableEq, Repr

/-! ## The program -/

/-- `EnableHighDPISupport` (main.cpp:12-14). -/
def EnableHighDPISupport (os : OS) : List Event :=
  [.SetProcessDPIAware os.dpiAware]

/-- `ConfigureSecurity` (main.cpp:17-26). -/
def ConfigureSecurity (os : OS) : List Event :=
  [.SetDefaultDllDirectories LOAD_LIBRARY_SEARCH_DEFAULT_DIRS os.dllDirectories,
   .SetProcessDEPPolicy (PROCESS_DEP_ENABLE ||| PROCESS_DEP_DISABLE_ATL_THUNK_EMULATION)
      os.depPolicy]

/-- `SetupDebugConsole` (main.cpp:29-54); the whole body is under `#ifdef _DEBUG`. -/
def SetupDebugConsole (debug : Bool) (os : OS) : List Event :=
  if debug then
    .AllocConsole os.allocConsole ::
      (if os.allocConsole then
        [.freopen_s .stdout "CONOUT$" "w",
         .freopen_s .stderr "CONOUT$" "w",
         .freopen_s .stdin "CONIN$" "r",
         .sync_with_stdio true,
         .clear .wcout,
         .clear .cout,
         .clear .wcerr,
         .clear .cerr,
         .clear .wcin,
         .clear .cin,
         .SetConsoleTitle "Reminest Debug Console",
         .cout "[DEBUG] Reminest Debug Console Initialized",
         .cout "[DEBUG] Mental Health Journal Application Starting..."]
      else [])
  else []

/-- A statement that is compiled only under `#ifdef _DEBUG`. -/
def ifdefDebug (debug : Bool) (events : List Event) : List Event :=
  if debug then events else []

/-- What `std::hex << hr` prints for an `HRESULT` (a 32-bit `long`): the
two's-complement bit pattern in lower-case hexadecimal. -/
def hexOfHRESULT (hr : Int) : String :=
  String.mk (Nat.toDigits 16 (hr % 2 ^ 32).toNat)

/-- Modelled from the spec: `GetCommandLineArguments` is defined in `utils.cpp`,
which is not among the sources; per the specification it yields the
process's command-line arguments excluding argument zero, the executable path. -/
def GetCommandLineArguments (os : OS) : List String :=
  os.argv.drop 1

/-- The message loop `while (::GetMessage(&msg, ..)) { TranslateMessage; DispatchMessage }`
(main.cpp:116-119), started at the `n`-th delivery with `msg` holding the
current contents of the local variable.  `fuel` bounds the number of
`GetMessage` calls observed; the Boolean tells whether the loop was left. -/
def messageLoop (os : OS) : (fuel : Nat) → (n : Nat) → (msg : MSG) → List Event × Bool
  | 0, _, _ => ([], false)
  | fuel + 1, n, msg =>
    let d := os.messages n
    let msg1 := d.stored.getD msg
    if d.ret ≠ 0 then
      let rest := messageLoop os fuel (n + 1) msg1
      (.GetMessage d.ret :: .TranslateMessage msg1 :: .DispatchMessage msg1 :: rest.1, rest.2)
    else
      ([.GetMessage d.ret], true)

/-- `wWinMain` (main.cpp:56-135). -/
def wWinMain (debug : Bool) (os : OS) (fuel : Nat) (_params : Params) : Result :=
  let t0 :=
    EnableHighDPISupport os ++ SetupDebugConsole debug os ++ ConfigureSecurity os ++
    ifdefDebug debug [.cout "[DEBUG] Initializing COM..."] ++
    [.CoInitializeEx COINIT_APARTMENTTHREADED os.hr]
  if FAILED os.hr then
    { trace := t0 ++
        ifdefDebug debug [.cerr ("[ERROR] Failed to initialize COM: " ++ hexOfHRESULT os.hr)],
      exit := some EXIT_FAILURE }
  else
    let command_line_arguments := GetCommandLineArguments os
    let t1 := t0 ++
      ifdefDebug debug [.cout "[DEBUG] Creating Flutter project..."] ++
      [.DartProject "data",
       .GetCommandLineArguments,
       .set_dart_entrypoint_arguments command_line_arguments] ++
      ifdefDebug debug [.cout "[DEBUG] Creating main window..."] ++
      [.FlutterWindow,
       .Create "Reminest - Mental Health Journal" ⟨10, 10⟩ ⟨1280, 720⟩ os.create]
    if !os.create then
      { trace := t1 ++
          ifdefDebug debug [.cerr "[ERROR] Failed to create main window"] ++
          [ Event.CoUninitialize],
        exit := some EXIT_FAILURE }
    else
      let t2 := t1 ++ [.SetQuitOnClose true] ++
        ifdefDebug debug [.cout "[DEBUG] Reminest window created successfully",
                          .cout "[DEBUG] Starting message loop..."]
      let loop := messageLoop os fuel 0 os.msg0
      if loop.2 then
        { trace := t2 ++ loop.1 ++
            ifdefDebug debug [.cout "[DEBUG] Application shutting down...",
                              .cout "[DEBUG] Cleaning up COM..."] ++
            [ Event.CoUninitialize] ++
            ifdefDebug debug [.cout "[DEBUG] Reminest application terminated cleanly",
                              .Sleep 1000],
          exit := some EXIT_SUCCESS }
      else
        { trace := t2 ++ loop.1, exit := none }

/-! ## Observations on traces -/

/-- The hardening calls of `EnableHighDPISupport` and `ConfigureSecurity`. -/
def Event.isHardening : Event → Bool
  | .SetProcessDPIAware _ => true
  | .SetDefaultDllDirectories _ _ => true
  | .SetProcessDEPPolicy _ _ => true
  | _ => false

/-- The call `SetProcessDPIAware()`. -/
def Event.isSetProcessDPIAware : Event → Bool
  | .SetProcessDPIAware _ => true
  | _ => false

/-- The two calls made by `ConfigureSecurity`. -/
def Event.isConfigureSecurity : Event → Bool
  | .SetDefaultDllDirectories _ _ => true
  | .SetProcessDEPPolicy _ _ => true
  | _ => false

/-- The console operations of `SetupDebugConsole`: allocation of the console,
rebinding of the standard streams to it and titling it. -/
def Event.isConsoleAttachment : Event → Bool
  | .AllocConsole _ => true
  | .freopen_s _ _ _ => true
  | .sync_with_stdio _ => true
  | .clear _ => true
  | .SetConsoleTitle _ => true
  | _ => false

/-- The stream rebinding done by `SetupDebugConsole` once a console exists. -/
def Event.isStreamRebinding : Event → Bool
  | .freopen_s _ _ _ => true
  | .sync_with_stdio _ => true
  | .clear _ => true
  | _ => false

/-- A line written to `std::cout` or `std::cerr`. -/
def Event.isDiagnosticWrite : Event → Bool
  | .cout _ => true
  | .cerr _ => true
  | _ => false

/-- The call `CoInitializeEx(..)`. -/
def Event.isCoInitializeEx : Event → Bool
  | .CoInitializeEx _ _ => true
  | _ => false

/-- Construction of the project descriptor and forwarding of the arguments. -/
def Event.isProject : Event → Bool
  | .DartProject _ => true
  | .GetCommandLineArguments => true
  | .set_dart_entrypoint_arguments _ => true
  | _ => false

/-- Construction of the `flutter::DartProject`. -/
def Event.isDartProject : Event → Bool
  | .DartProject _ => true
  | _ => false

/-- Construction of the `FlutterWindow` object. -/
def Event.isFlutterWindow : Event → Bool
  | .FlutterWindow => true
  | _ => false

/-- The call `window.Create(..)`. -/
def Event.isCreate : Event → Bool
  | .Create _ _ _ _ => true
  | _ => false

/-- The call `window.SetQuitOnClose(..)`. -/
def Event.isSetQuitOnClose : Event → Bool
  | .SetQuitOnClose _ => true
  | _ => false

/-- The call `GetMessage(..)`. -/
def Event.isGetMessage : Event → Bool
  | .GetMessage _ => true
  | _ => false

/-- The three calls of the message loop. -/
def Event.isMessageLoop : Event → Bool
  | .GetMessage _ => true
  | .TranslateMessage _ => true
  | .DispatchMessage _ => true
  | _ => false

/-- The call `CoUninitialize()`. -/
def Event.isCoUninitialize : Event → Bool
  | Event.CoUninitialize => true
  | _ => false

/-- The operations present only under `#ifdef _DEBUG`: console allocation
(`AllocConsole`, `SetConsoleTitle`), stream rebinding (`freopen_s`,
`sync_with_stdio`, `clear`), diagnostic marker writes and the closing delay. -/
def Event.isDiagnostic : Event → Bool
  | .AllocConsole _ => true
  | .SetConsoleTitle _ => true
  | .freopen_s _ _ _ => true
  | .sync_with_stdio _ => true
  | .clear _ => true
  | .cout _ => true
  | .cerr _ => true
  | .Sleep _ => true
  | _ => false

/-- The operations of the functional contract: hardening calls, runtime
initialization, project construction and argument forwarding, window
construction and creation, `SetQuitOnClose`, the message loop and the release
of the runtime. -/
def Event.isFunctional : Event → Bool
  | .SetProcessDPIAware _ => true
  | .SetDefaultDllDirectories _ _ => true
  | .SetProcessDEPPolicy _ _ => true
  | .CoInitializeEx _ _ => true
  | .DartProject _ => true
  | .GetCommandLineArguments => true
  | .set_dart_entrypoint_arguments _ => true
  | .FlutterWindow => true
  | .Create _ _ _ _ => true
  | .SetQuitOnClose _ => true
  | .GetMessage _ => true
  | .TranslateMessage _ => true
  | .DispatchMessage _ => true
  | Event.CoUninitialize => true
  | _ => false

/-- Runtime initialization, project, window, message-loop and release
operations: the functional operations other than the hardening calls. -/
def Event.isCore (e : Event) : Bool :=
  e.isFunctional && !e.isHardening

/-- In the trace `t`, every `p`-event comes before every `q`-event: whenever `a`
occurs earlier than `b` and `a` is a `q`-event, `b` is not a `p`-event. -/
def AllBefore (p q : Event → Bool) (t : List Event) : Prop :=
  t.Pairwise (fun a b => q a = true → p b = false)

instance AllBefore.decidable (p q : Event → Bool) (t : List Event) :
    Decidable (AllBefore p q t) := by
  unfold AllBefore
  infer_instance

/-- The argument lists handed to `set_dart_entrypoint_arguments`, in order. -/
def forwarded : List Event → List (List String)
  | [] => []
  | .set_dart_entrypoint_arguments args :: t => args :: forwarded t
  | _ :: t => forwarded t

/-- The contents of the local `msg` after the first `k` deliveries. -/
def msgAfter (os : OS) : Nat → MSG
  | 0 => os.msg0
  | k + 1 => (os.messages k).stored.getD (msgAfter os k)

/-- Specification of one iteration of the event loop: retrieve delivery `i`,
then translate and then dispatch the message it left in `msg`. -/
def iteration (os : OS) (i : Nat) : List Event :=
  [.GetMessage (os.messages i).ret,
   .TranslateMessage (msgAfter os (i + 1)),
   .DispatchMessage (msgAfter os (i + 1))]

/-- Specification of the event loop in `Running`: the first `k` deliveries are
handled by one `iteration` each, in order of retrieval. -/
def pumped (os : OS) (k : Nat) : List Event :=
  (List.range k).flatMap (iteration os)

/-- A run used to illustrate the theorems: a diagnostic build started as
`app.exe --journal-dir=C:\data` in which every call succeeds and the window is
closed after two messages. -/
def sampleOS : OS where
  dpiAware := true
  allocConsole := true
  dllDirectories := true
  depPolicy := true
  hr := 0
  argv := ["app.exe", "--journal-dir=C:\\data"]
  create := true
  msg0 := ⟨0, 0, 0, 0⟩
  messages := fun n => if n < 2 then ⟨1, some ⟨1, 15 + n, 0, 0⟩⟩ else ⟨0, some ⟨0, 18, 0, 0⟩⟩

/-- A run in which every call of `GetMessage` fails with `-1` and stores nothing. -/
def errorOS : OS := { sampleOS with messages := fun _ => ⟨-1, none⟩ }

/-- The environment `os` with other results of the four best-effort calls
`SetProcessDPIAware`, `AllocConsole`, `SetDefaultDllDirectories` and
`SetProcessDEPPolicy`, and everything else unchanged. -/
def OS.withBestEffort (os : OS) (dpi alloc dll dep : Bool) : OS :=
  { os with dpiAware := dpi, allocConsole := alloc, dllDirectories := dll, depPolicy := dep }

/-- A run in which the runtime initializes and `window.Create` returns false. -/
def createFailOS : OS := { sampleOS with create := false }

/-- A run in which `CoInitializeEx` returns `E_FAIL` (0x80004005). -/
def initFailOS : OS := { sampleOS with hr := -2147467259 }

/-- The messages handed to `TranslateMessage` in a trace, in order. -/
def translated : List Event → List MSG
  | [] => []
  | .TranslateMessage msg :: t => msg :: translated t
  | _ :: t => translated t

/-- The messages handed to `DispatchMessage` in a trace, in order. -/
def dispatched : List Event → List MSG
  | [] => []
  | .DispatchMessage msg :: t => msg :: dispatched t
  | _ :: t => dispatched t

/-- Specification side: the messages retrieved before the quit signal among the
`fuel` deliveries from the `n`-th on, in order of retrieval.  A delivery
retrieves a message when its result is neither the quit signal `0` nor the
error `-1`; the message is the one it stored into `msg`. -/
def retrieved (os : OS) : (fuel : Nat) → (n : Nat) → List MSG
  | 0, _ => []
  | fuel + 1, n =>
    if (os.messages n).ret = 0 then []
    else if (os.messages n).ret = -1 then retrieved os fuel (n + 1)
    else (os.messages n).stored.toList ++ retrieved os fuel (n + 1)

/-- Specification side: every message retrieved before the quit signal is passed
to `TranslateMessage` and to `DispatchMessage` exactly once each, in order of
retrieval, and nothing else is. -/
def EachRetrievedOnce (os : OS) (fuel : Nat) : Prop :=
  translated (messageLoop os fuel 0 os.msg0).1 = retrieved os fuel 0 ∧
  dispatched (messageLoop os fuel 0 os.msg0).1 = retrieved os fuel 0

instance EachRetrievedOnce.decidable (os : OS) (fuel : Nat) :
    Decidable (EachRetrievedOnce os fuel) := by
  unfold EachRetrievedOnce
  infer_instance

/-- A run in which `GetMessage` first retrieves one message (`WM_PAINT` for
window 1), then fails with `-1` storing nothing, then delivers the quit signal. -/
def staleOS : OS :=
  { sampleOS with
    messages := fun n =>
      if n = 0 then ⟨1, some ⟨1, 15, 0, 0⟩⟩ else if n = 1 then ⟨-1, none⟩ else ⟨0, none⟩ }

/-- Parameters used to illustrate the theorems. -/
def sampleParams : Params := ⟨1, 0, "--journal-dir=C:\\data", 10⟩

/-! ## Lemmas on the message loop -/

theorem messageLoop_events (os : OS) (fuel n : Nat) (msg : MSG) :
    ∀ e ∈ (messageLoop os fuel n msg).1, e.isMessageLoop = true := by
  induction fuel generalizing n msg with
  | zero => simp [messageLoop]
  | succ fuel ih =>
    intro e he
    simp only [messageLoop] at he
    split at he
    · simp only [List.mem_cons] at he
      rcases he with rfl | rfl | rfl | he
      · rfl
      · rfl
      · rfl
      · exact ih _ _ e he
    · simp only [List.mem_singleton] at he
      subst he
      rfl

theorem messageLoop_filter (p : Event → Bool)
    (hp : ∀ e, Event.isMessageLoop e = true → p e = false)
    (os : OS) (fuel n : Nat) (msg : MSG) :
    (messageLoop os fuel n msg).1.filter p = [] := by
  rw [List.filter_eq_nil_iff]
  intro e he
  simp [hp e (messageLoop_events os fuel n msg e he)]

theorem forwarded_append (l r : List Event) :
    forwarded (l ++ r) = forwarded l ++ forwarded r := by
  induction l with
  | nil => rfl
  | cons e l ih => cases e <;> simp [forwarded, ih]

theorem messageLoop_forwarded (os : OS) (fuel n : Nat) (msg : MSG) :
    forwarded (messageLoop os fuel n msg).1 = [] := by
  induction fuel generalizing n msg with
  | zero => simp [messageLoop, forwarded]
  | succ fuel ih =>
    simp only [messageLoop]
    split
    · simp [forwarded, ih]
    · simp [forwarded]

/-- The loop consults nothing of the environment but the deliveries. -/
theorem messageLoop_congr (os os1 : OS) (h : os1.messages = os.messages)
    (fuel n : Nat) (msg : MSG) :
    messageLoop os1 fuel n msg = messageLoop os fuel n msg := by
  induction fuel generalizing n msg with
  | zero => rfl
  | succ fuel ih => simp only [messageLoop, h, ih]

/-- While no delivery is the quit signal the loop keeps running, one iteration
per delivery. -/
theorem messageLoop_running (os : OS) (fuel n : Nat)
    (h : ∀ i, i < fuel → (os.messages (n + i)).ret ≠ 0) :
    messageLoop os fuel n (msgAfter os n) =
      ((List.range' n fuel).flatMap (iteration os), false) := by
  induction fuel generalizing n with
  | zero => simp [messageLoop]
  | succ fuel ih =>
    have h0 : (os.messages n).ret ≠ 0 := by simpa using h 0 (Nat.succ_pos _)
    have hrest : ∀ i, i < fuel → (os.messages (n + 1 + i)).ret ≠ 0 := by
      intro i hi
      have := h (i + 1) (Nat.succ_lt_succ hi)
      rwa [show n + (i + 1) = n + 1 + i by omega] at this
    have ih1 := ih (n + 1) hrest
    simp only [msgAfter] at ih1
    simp [messageLoop, h0, ih1, List.range'_succ, iteration, msgAfter]

/-- At the first quit signal the loop is left, after one iteration per earlier
delivery. -/
theorem messageLoop_quit (os : OS) (k n fuel : Nat) (hk : k < fuel)
    (h : ∀ i, i < k → (os.messages (n + i)).ret ≠ 0) (hq : (os.messages (n + k)).ret = 0) :
    messageLoop os fuel n (msgAfter os n) =
      ((List.range' n k).flatMap (iteration os) ++ [.GetMessage 0], true) := by
  induction k generalizing n fuel with
  | zero =>
    obtain ⟨fuel, rfl⟩ : ∃ f, fuel = f + 1 := ⟨fuel - 1, by omega⟩
    have hq0 : (os.messages n).ret = 0 := by simpa using hq
    simp [messageLoop, hq0]
  | succ k ih =>
    obtain ⟨fuel, rfl⟩ : ∃ f, fuel = f + 1 := ⟨fuel - 1, by omega⟩
    have h0 : (os.messages n).ret ≠ 0 := by simpa using h 0 (Nat.succ_pos _)
    have hrest : ∀ i, i < k → (os.messages (n + 1 + i)).ret ≠ 0 := by
      intro i hi
      have := h (i + 1) (Nat.succ_lt_succ hi)
      rwa [show n + (i + 1) = n + 1 + i by omega] at this
    have hq1 : (os.messages (n + 1 + k)).ret = 0 := by
      rwa [show n + (k + 1) = n + 1 + k by omega] at hq
    have ih1 := ih (n + 1) fuel (by omega) hrest hq1
    simp only [msgAfter] at ih1
    simp [messageLoop, h0, ih1, List.range'_succ, iteration, msgAfter]

/-- The loop is left within `fuel` retrievals exactly when one of the first
`fuel` deliveries is the quit signal. -/
theorem messageLoop_left_iff (os : OS) (fuel : Nat) :
    (messageLoop os fuel 0 os.msg0).2 = true ↔ ∃ k, k < fuel ∧ (os.messages k).ret = 0 := by
  constructor
  · intro hleft
    by_contra hno
    have hrun := messageLoop_running os fuel 0 (by
      intro i hi hz
      exact hno ⟨i, hi, by simpa using hz⟩)
    simp only [msgAfter] at hrun
    rw [hrun] at hleft
    exact Bool.false_ne_true hleft
  · intro hex
    classical
    have hk := Nat.find_spec hex
    have hmin : ∀ i, i < Nat.find hex → (os.messages (0 + i)).ret ≠ 0 := by
      intro i hi hz
      exact Nat.find_min hex hi ⟨lt_trans hi hk.1, by simpa using hz⟩
    have hq := messageLoop_quit os (Nat.find hex) 0 fuel hk.1 hmin (by simpa using hk.2)
    simp only [msgAfter] at hq
    rw [hq]

theorem AllBefore_of_no_later (p q : Event → Bool) (t : List Event)
    (h : ∀ e ∈ t, q e = false) : AllBefore p q t :=
  (List.pairwise_of_forall (fun _ _ => trivial) : t.Pairwise (fun _ _ => True)).imp_of_mem
    (fun ha _ _ => by simp [h _ ha])

theorem AllBefore_of_no_earlier (p q : Event → Bool) (t : List Event)
    (h : ∀ e ∈ t, p e = false) : AllBefore p q t :=
  (List.pairwise_of_forall (fun _ _ => trivial) : t.Pairwise (fun _ _ => True)).imp_of_mem
    (fun _ hb _ => by simp [h _ hb])

/-- A predicate that holds of no message-loop call holds of no event of the loop. -/
theorem messageLoop_none (p : Event → Bool)
    (hp : ∀ e, Event.isMessageLoop e = true → p e = false)
    (os : OS) (fuel n : Nat) (msg : MSG) :
    ∀ e ∈ (messageLoop os fuel n msg).1, p e = false :=
  fun e he => hp e (messageLoop_events os fuel n msg e he)

/-! ## Failure paths -/

/-- C1: when `CoInitializeEx` succeeds and `window.Create` returns false, the run
returns `EXIT_FAILURE`; `CoUninitialize` is called exactly once, after the one
failed `Create` call, and is the last call before the return; neither
`SetQuitOnClose` nor any call of the message loop is made. -/
theorem create_failure_releases_once (debug : Bool) (os : OS) (fuel : Nat) (params : Params)
    (hinit : 0 ≤ os.hr) (hcreate : os.create = false) :
    (wWinMain debug os fuel params).exit = some EXIT_FAILURE ∧
    (wWinMain debug os fuel params).trace.countP Event.isCoUninitialize = 1 ∧
    (wWinMain debug os fuel params).trace.filter Event.isCreate =
      [.Create "Reminest - Mental Health Journal" ⟨10, 10⟩ ⟨1280, 720⟩ false] ∧
    AllBefore Event.isCreate Event.isCoUninitialize (wWinMain debug os fuel params).trace ∧
    (wWinMain debug os fuel params).trace.getLast? = some Event.CoUninitialize ∧
    (wWinMain debug os fuel params).trace.countP Event.isSetQuitOnClose = 0 ∧
    (wWinMain debug os fuel params).trace.countP Event.isMessageLoop = 0 := by
  have hf : FAILED os.hr = false := by simp [FAILED, hinit]
  unfold wWinMain SetupDebugConsole
  generalize os.allocConsole = b
  cases debug <;> cases b <;>
    simp [hf, hcreate, EnableHighDPISupport, ConfigureSecurity, ifdefDebug,
      AllBefore, Event.isCoUninitialize, Event.isCreate, Event.isSetQuitOnClose,
      Event.isMessageLoop, List.countP_cons, List.filter_cons]

/-- Witness of C1 on `createFailOS`, a diagnostic build. -/
theorem create_failure_releases_once_witness :
    0 ≤ createFailOS.hr ∧ createFailOS.create = false ∧
    (wWinMain true createFailOS 5 sampleParams).exit = some EXIT_FAILURE ∧
    (wWinMain true createFailOS 5 sampleParams).trace.countP Event.isCoUninitialize = 1 :=
  ⟨by decide, rfl,
    (create_failure_releases_once true createFailOS 5 sampleParams (by decide) rfl).1,
    (create_failure_releases_once true createFailOS 5 sampleParams (by decide) rfl).2.1⟩

/-- C2: when `CoInitializeEx` returns a negative `HRESULT`, the run returns
`EXIT_FAILURE` and its trace holds no project construction or argument
forwarding, no `FlutterWindow` construction, no `Create`, no message-loop call
and no `CoUninitialize`; the failed `CoInitializeEx` is the last functional call. -/
theorem init_failure_stops (debug : Bool) (os : OS) (fuel : Nat) (params : Params)
    (hfail : os.hr < 0) :
    (wWinMain debug os fuel params).exit = some EXIT_FAILURE ∧
    (wWinMain debug os fuel params).trace.countP Event.isFlutterWindow = 0 ∧
    (wWinMain debug os fuel params).trace.countP Event.isCreate = 0 ∧
    (wWinMain debug os fuel params).trace.countP Event.isProject = 0 ∧
    (wWinMain debug os fuel params).trace.countP Event.isSetQuitOnClose = 0 ∧
    (wWinMain debug os fuel params).trace.countP Event.isMessageLoop = 0 ∧
    (wWinMain debug os fuel params).trace.countP Event.isCoUninitialize = 0 ∧
    ((wWinMain debug os fuel params).trace.filter Event.isFunctional).getLast? =
      some (.CoInitializeEx COINIT_APARTMENTTHREADED os.hr) := by
  have hf : FAILED os.hr = true := by simp [FAILED, hfail]
  unfold wWinMain SetupDebugConsole
  generalize os.allocConsole = b
  cases debug <;> cases b <;>
    simp [hf, EnableHighDPISupport, ConfigureSecurity, ifdefDebug,
      Event.isCoUninitialize, Event.isCreate, Event.isSetQuitOnClose, Event.isFlutterWindow,
      Event.isProject, Event.isFunctional, Event.isMessageLoop, List.countP_cons,
      List.filter_cons]

/-- Witness of C2 on `initFailOS`, a diagnostic build. -/
theorem init_failure_stops_witness :
    initFailOS.hr < 0 ∧
    (wWinMain true initFailOS 5 sampleParams).exit = some EXIT_FAILURE ∧
    (wWinMain true initFailOS 5 sampleParams).trace.countP Event.isFlutterWindow = 0 :=
  ⟨by decide,
    (init_failure_stops true initFailOS 5 sampleParams (by decide)).1,
    (init_failure_stops true initFailOS 5 sampleParams (by decide)).2.1⟩

/-! ## Project descriptor and window parameters -/

/-- C5: the argument lists handed to `set_dart_entrypoint_arguments` in a run are
none when `CoInitializeEx` fails and otherwise exactly one, the result of
`GetCommandLineArguments()` unchanged, which is the process arguments without
the zeroth, in order and unaltered, whatever the `command_line` parameter of
`wWinMain` is; for `app.exe --journal-dir=C:\data` that list is
`["--journal-dir=C:\\data"]`. -/
theorem forwarded_arguments (debug : Bool) (os : OS) (fuel : Nat) (params : Params) :
    forwarded (wWinMain debug os fuel params).trace =
      (if os.hr < 0 then [] else [GetCommandLineArguments os]) ∧
    forwarded (wWinMain debug os fuel params).trace =
      (if os.hr < 0 then [] else [os.argv.tail]) ∧
    (∀ exe rest, os.argv = exe :: rest → 0 ≤ os.hr →
      forwarded (wWinMain debug os fuel params).trace = [rest]) ∧
    (os.argv = ["app.exe", "--journal-dir=C:\\data"] → 0 ≤ os.hr →
      forwarded (wWinMain debug os fuel params).trace = [["--journal-dir=C:\\data"]]) := by
  have hL := messageLoop_forwarded os fuel 0 os.msg0
  have key : forwarded (wWinMain debug os fuel params).trace =
      (if os.hr < 0 then [] else [GetCommandLineArguments os]) := by
    unfold wWinMain SetupDebugConsole
    generalize messageLoop os fuel 0 os.msg0 = L at hL ⊢
    rcases L with ⟨lt, lb⟩
    generalize os.allocConsole = b
    generalize os.create = cr
    generalize GetCommandLineArguments os = args
    simp only at hL
    by_cases hf : os.hr < 0 <;> cases debug <;> cases b <;> cases cr <;> cases lb <;>
      simp [FAILED, hf, hL, EnableHighDPISupport, ConfigureSecurity, ifdefDebug,
        forwarded, forwarded_append]
  have htail : GetCommandLineArguments os = os.argv.tail := by
    simp [GetCommandLineArguments]
  refine ⟨key, htail ▸ key, ?_, ?_⟩
  · intro exe rest hargv hinit
    rw [key, htail, hargv, if_neg (not_lt.mpr hinit)]
    rfl
  · intro hargv hinit
    rw [key, htail, hargv, if_neg (not_lt.mpr hinit)]
    rfl

/-- C8: in every run the `Create` calls, the `FlutterWindow` constructions and the
`DartProject` constructions are none when `CoInitializeEx` fails and otherwise
exactly one each: `Create` with title "Reminest - Mental Health Journal", origin
(10, 10) and size (1280, 720), and `DartProject` with the location "data". -/
theorem window_created_once_fixed (debug : Bool) (os : OS) (fuel : Nat) (params : Params) :
    (wWinMain debug os fuel params).trace.filter Event.isCreate =
      (if os.hr < 0 then []
       else [.Create "Reminest - Mental Health Journal" ⟨10, 10⟩ ⟨1280, 720⟩ os.create]) ∧
    (wWinMain debug os fuel params).trace.filter Event.isFlutterWindow =
      (if os.hr < 0 then [] else [.FlutterWindow]) ∧
    (wWinMain debug os fuel params).trace.filter Event.isDartProject =
      (if os.hr < 0 then [] else [.DartProject "data"]) := by
  have hC := messageLoop_filter Event.isCreate
    (by intro e; cases e <;> simp [Event.isMessageLoop, Event.isCreate]) os fuel 0 os.msg0
  have hW := messageLoop_filter Event.isFlutterWindow
    (by intro e; cases e <;> simp [Event.isMessageLoop, Event.isFlutterWindow]) os fuel 0 os.msg0
  have hD := messageLoop_filter Event.isDartProject
    (by intro e; cases e <;> simp [Event.isMessageLoop, Event.isDartProject]) os fuel 0 os.msg0
  unfold wWinMain SetupDebugConsole
  generalize messageLoop os fuel 0 os.msg0 = L at hC hW hD ⊢
  rcases L with ⟨lt, lb⟩
  generalize os.allocConsole = b
  generalize os.create = cr
  simp only at hC hW hD
  by_cases hf : os.hr < 0 <;> cases debug <;> cases b <;> cases cr <;> cases lb <;>
    simp [FAILED, hf, hC, hW, hD, EnableHighDPISupport, ConfigureSecurity, ifdefDebug,
      Event.isCreate, Event.isFlutterWindow, Event.isDartProject, List.filter_cons]

/-! ## Success path -/

/-- C3: when `CoInitializeEx` succeeds, `Create` returns true and the `n`-th
delivery is the quit signal, every run observed for more than `n` retrievals
returns `EXIT_SUCCESS`; `SetQuitOnClose(true)` is called exactly once, after the
one `Create` and before every `GetMessage`; `CoUninitialize` is called exactly
once, after every call of the message loop.  Over all runs, a returned value is
`EXIT_SUCCESS` exactly when both `CoInitializeEx` and `Create` succeeded. -/
theorem success_path (debug : Bool) (os : OS) (params : Params)
    (hinit : 0 ≤ os.hr) (hcreate : os.create = true)
    (n : Nat) (hquit : (os.messages n).ret = 0) :
    (∀ fuel, n < fuel →
      (wWinMain debug os fuel params).exit = some EXIT_SUCCESS ∧
      (wWinMain debug os fuel params).trace.filter Event.isSetQuitOnClose =
        [.SetQuitOnClose true] ∧
      (wWinMain debug os fuel params).trace.countP Event.isCreate = 1 ∧
      AllBefore Event.isCreate Event.isSetQuitOnClose (wWinMain debug os fuel params).trace ∧
      AllBefore Event.isSetQuitOnClose Event.isGetMessage (wWinMain debug os fuel params).trace ∧
      (wWinMain debug os fuel params).trace.countP Event.isCoUninitialize = 1 ∧
      AllBefore Event.isMessageLoop Event.isCoUninitialize
        (wWinMain debug os fuel params).trace) ∧
    (∀ (debug1 : Bool) (os1 : OS) (fuel1 : Nat) (params1 : Params) (c : Int),
      (wWinMain debug1 os1 fuel1 params1).exit = some c →
        (c = EXIT_SUCCESS ↔ 0 ≤ os1.hr ∧ os1.create = true)) := by
  constructor
  · intro fuel hfuel
    have hf : FAILED os.hr = false := by simp [FAILED, hinit]
    have hleft := (messageLoop_left_iff os fuel).2 ⟨n, hfuel, hquit⟩
    have hev := messageLoop_events os fuel 0 os.msg0
    have h1 := messageLoop_none Event.isSetQuitOnClose
      (by intro e; cases e <;> simp [Event.isMessageLoop, Event.isSetQuitOnClose])
      os fuel 0 os.msg0
    have h2 := messageLoop_none Event.isCreate
      (by intro e; cases e <;> simp [Event.isMessageLoop, Event.isCreate]) os fuel 0 os.msg0
    have h3 := messageLoop_none Event.isCoUninitialize
      (by intro e; cases e <;> simp [Event.isMessageLoop, Event.isCoUninitialize])
      os fuel 0 os.msg0
    unfold wWinMain SetupDebugConsole
    generalize messageLoop os fuel 0 os.msg0 = L at hleft hev h1 h2 h3 ⊢
    rcases L with ⟨lt, lb⟩
    simp only at hleft hev h1 h2 h3
    subst hleft
    have p1 := AllBefore_of_no_later Event.isCreate Event.isSetQuitOnClose lt h1
    have p2 := AllBefore_of_no_earlier Event.isSetQuitOnClose Event.isGetMessage lt h1
    have p3 := AllBefore_of_no_later Event.isMessageLoop Event.isCoUninitialize lt h3
    have f1 : lt.filter Event.isSetQuitOnClose = [] :=
      List.filter_eq_nil_iff.2 (by simpa using h1)
    have c2 : lt.countP Event.isCreate = 0 := List.countP_eq_zero.2 (by simpa using h2)
    have c3 : lt.countP Event.isCoUninitialize = 0 :=
      List.countP_eq_zero.2 (by simpa using h3)
    unfold AllBefore at p1 p2 p3 ⊢
    generalize os.allocConsole = b
    cases debug <;> cases b <;>
      simp +contextual [hf, hcreate, EnableHighDPISupport, ConfigureSecurity, ifdefDebug,
        Event.isCoUninitialize.eq_1, Event.isCoUninitialize.eq_2,
        Event.isCreate.eq_1, Event.isCreate.eq_2,
        Event.isSetQuitOnClose.eq_1, Event.isSetQuitOnClose.eq_2,
        Event.isGetMessage.eq_1, Event.isGetMessage.eq_2,
        Event.isMessageLoop.eq_1, Event.isMessageLoop.eq_2, Event.isMessageLoop.eq_3,
        Event.isMessageLoop.eq_4,
        List.countP_cons, List.filter_cons, List.pairwise_append, or_imp, forall_and,
        p1, p2, p3, f1, c2, c3, h1, h2, h3, hev]
  · intro debug1 os1 fuel1 params1 c
    unfold wWinMain
    by_cases hf : os1.hr < 0
    · simp only [FAILED, hf, decide_True, if_true, Option.some.injEq]
      intro hc
      subst hc
      simp [EXIT_FAILURE, EXIT_SUCCESS, hf]
    · cases hc : os1.create
      · simp only [FAILED, hf, decide_False, Bool.false_eq_true, if_false, Bool.not_false,
          if_true, Option.some.injEq]
        intro hc
        subst hc
        simp [EXIT_FAILURE, EXIT_SUCCESS]
      · simp only [FAILED, hf, decide_False, Bool.false_eq_true, if_false, Bool.not_true]
        split
        · simp only [Option.some.injEq]
          intro hc
          subst hc
          simp [not_lt.mp hf]
        · intro h
          exact absurd h (by simp)

/-- Witness of C3 on `sampleOS`, whose third delivery is the quit signal. -/
theorem success_path_witness :
    0 ≤ sampleOS.hr ∧ sampleOS.create = true ∧ (sampleOS.messages 2).ret = 0 ∧
    (wWinMain true sampleOS 3 sampleParams).exit = some EXIT_SUCCESS ∧
    (wWinMain true sampleOS 3 sampleParams).trace.filter Event.isSetQuitOnClose =
      [.SetQuitOnClose true] :=
  ⟨by decide, rfl, rfl,
    ((success_path true sampleOS sampleParams (by decide) rfl 2 rfl).1 3 (by decide)).1,
    ((success_path true sampleOS sampleParams (by decide) rfl 2 rfl).1 3 (by decide)).2.1⟩

/-! ## The event loop -/

/-- Event loop as implemented: the loop is left within `fuel` retrievals exactly
when one of the first `fuel` deliveries is the quit signal (result 0); if the
first quit signal is delivery `k`, the calls of the loop are one iteration
(GetMessage, then TranslateMessage, then DispatchMessage of what `msg` holds
after that call) per earlier delivery, in order, then the `GetMessage` that
returns 0, and nothing more; while no quit signal is delivered the loop stays in
`Running`, one iteration per delivery.  The message-loop calls of a run of
`wWinMain` that created its window are exactly the calls of this loop. -/
theorem event_loop_state_machine (debug : Bool) (os : OS) (fuel : Nat) (params : Params) :
    ((messageLoop os fuel 0 os.msg0).2 = true ↔ ∃ k, k < fuel ∧ (os.messages k).ret = 0) ∧
    (∀ k, k < fuel → (∀ i, i < k → (os.messages i).ret ≠ 0) → (os.messages k).ret = 0 →
      messageLoop os fuel 0 os.msg0 = (pumped os k ++ [.GetMessage 0], true)) ∧
    ((∀ i, i < fuel → (os.messages i).ret ≠ 0) →
      messageLoop os fuel 0 os.msg0 = (pumped os fuel, false)) ∧
    (wWinMain debug os fuel params).trace.filter Event.isMessageLoop =
      (if os.hr < 0 then [] else if os.create then (messageLoop os fuel 0 os.msg0).1
       else []) := by
  refine ⟨messageLoop_left_iff os fuel, ?_, ?_, ?_⟩
  · intro k hk hbefore hq
    have h := messageLoop_quit os k 0 fuel hk (by simpa using hbefore) (by simpa using hq)
    simpa [msgAfter, pumped, List.range_eq_range'] using h
  · intro hrun
    have h := messageLoop_running os fuel 0 (by simpa using hrun)
    simpa [msgAfter, pumped, List.range_eq_range'] using h
  · have hF : (messageLoop os fuel 0 os.msg0).1.filter Event.isMessageLoop =
        (messageLoop os fuel 0 os.msg0).1 :=
      List.filter_eq_self.2 (messageLoop_events os fuel 0 os.msg0)
    unfold wWinMain SetupDebugConsole
    generalize messageLoop os fuel 0 os.msg0 = L at hF ⊢
    rcases L with ⟨lt, lb⟩
    generalize os.allocConsole = b
    generalize os.create = cr
    simp only at hF
    by_cases hf : os.hr < 0 <;> cases debug <;> cases b <;> cases cr <;> cases lb <;>
      simp [FAILED, hf, hF, EnableHighDPISupport, ConfigureSecurity, ifdefDebug,
        Event.isMessageLoop, List.filter_cons]

/-- Off the error path the loop translates and dispatches every retrieved message
exactly once: when no delivery is the error `-1` and every non-zero delivery
stores a message, the translated and the dispatched messages are the retrieved
ones, in order. -/
theorem each_retrieved_once_without_errors (os : OS)
    (hne : ∀ i, (os.messages i).ret ≠ -1)
    (hst : ∀ i, (os.messages i).ret ≠ 0 → ∃ m, (os.messages i).stored = some m)
    (fuel n : Nat) (msg : MSG) :
    translated (messageLoop os fuel n msg).1 = retrieved os fuel n ∧
    dispatched (messageLoop os fuel n msg).1 = retrieved os fuel n := by
  induction fuel generalizing n msg with
  | zero => simp [messageLoop, translated, dispatched, retrieved]
  | succ fuel ih =>
    by_cases h0 : (os.messages n).ret = 0
    · simp [messageLoop, retrieved, h0, translated, dispatched]
    · obtain ⟨m, hm⟩ := hst n h0
      have ih1 := ih (n + 1) m
      simp [messageLoop, retrieved, h0, hne n, hm, translated, dispatched, ih1.1, ih1.2]

/-- C9 fails on the code at an error result.  On `staleOS` (deliveries: result 1
storing message A, result -1 storing nothing, result 0) the loop calls
TranslateMessage and DispatchMessage a second time on the stale contents of
`msg`, so A, retrieved once, is translated twice and dispatched twice before the
loop is left at the quit signal and the run returns `EXIT_SUCCESS`. -/
theorem error_result_redispatches :
    messageLoop staleOS 3 0 staleOS.msg0 =
      ([.GetMessage 1, .TranslateMessage ⟨1, 15, 0, 0⟩, .DispatchMessage ⟨1, 15, 0, 0⟩,
        .GetMessage (-1), .TranslateMessage ⟨1, 15, 0, 0⟩, .DispatchMessage ⟨1, 15, 0, 0⟩,
        .GetMessage 0], true) ∧
    retrieved staleOS 3 0 = [⟨1, 15, 0, 0⟩] ∧
    translated (messageLoop staleOS 3 0 staleOS.msg0).1 = [⟨1, 15, 0, 0⟩, ⟨1, 15, 0, 0⟩] ∧
    dispatched (messageLoop staleOS 3 0 staleOS.msg0).1 = [⟨1, 15, 0, 0⟩, ⟨1, 15, 0, 0⟩] ∧
    (wWinMain false staleOS 3 sampleParams).trace.filter Event.isMessageLoop =
      (messageLoop staleOS 3 0 staleOS.msg0).1 ∧
    (wWinMain false staleOS 3 sampleParams).exit = some EXIT_SUCCESS := by
  decide

/-- C9 as stated is false on `staleOS`: the messages translated and dispatched
are not the messages retrieved, each exactly once. -/
theorem each_retrieved_once_fails : ¬ EachRetrievedOnce staleOS 3 := by
  decide

/-- C10: a delivery whose result is `-1` is handled as any non-zero result: the
loop translates and dispatches the current contents of `msg` and calls
`GetMessage` again.  When `CoInitializeEx` and `Create` succeed and every
delivery is `-1`, the run never returns and never calls `CoUninitialize`,
however long it is observed: after `fuel` retrievals it has made `fuel`
`GetMessage` calls and is still in the loop. -/
theorem error_result_keeps_running (debug : Bool) (os : OS) (params : Params)
    (hinit : 0 ≤ os.hr) (hcreate : os.create = true) :
    (∀ fuel n msg, (os.messages n).ret = -1 →
      messageLoop os (fuel + 1) n msg =
        (.GetMessage (-1) ::
          .TranslateMessage ((os.messages n).stored.getD msg) ::
          .DispatchMessage ((os.messages n).stored.getD msg) ::
          (messageLoop os fuel (n + 1) ((os.messages n).stored.getD msg)).1,
         (messageLoop os fuel (n + 1) ((os.messages n).stored.getD msg)).2)) ∧
    ((∀ n, (os.messages n).ret = -1) → ∀ fuel,
      (wWinMain debug os fuel params).exit = none ∧
      (wWinMain debug os fuel params).trace.countP Event.isCoUninitialize = 0 ∧
      (wWinMain debug os fuel params).trace.countP Event.isGetMessage = fuel ∧
      messageLoop os fuel 0 os.msg0 = (pumped os fuel, false)) := by
  constructor
  · intro fuel n msg herr
    simp [messageLoop, herr]
  · intro herr fuel
    have hf : FAILED os.hr = false := by simp [FAILED, hinit]
    have hrun : messageLoop os fuel 0 os.msg0 = (pumped os fuel, false) := by
      have h := messageLoop_running os fuel 0 (by intro i _; rw [herr]; decide)
      simpa [msgAfter, pumped, List.range_eq_range'] using h
    have hG : ∀ k, (pumped os k).countP Event.isGetMessage = k := by
      intro k
      induction k with
      | zero => simp [pumped]
      | succ k ih =>
        simp only [pumped, List.range_succ, List.flatMap_append, List.countP_append] at ih ⊢
        rw [ih]
        simp [iteration, Event.isGetMessage, List.countP_cons]
    have hU : ∀ k, (pumped os k).countP Event.isCoUninitialize = 0 := by
      intro k
      induction k with
      | zero => simp [pumped]
      | succ k ih =>
        simp only [pumped, List.range_succ, List.flatMap_append, List.countP_append] at ih ⊢
        rw [ih]
        simp [iteration, Event.isCoUninitialize, List.countP_cons]
    refine ⟨?_, ?_, ?_, hrun⟩
    · unfold wWinMain
      simp [hf, hcreate, hrun]
    · unfold wWinMain SetupDebugConsole
      generalize os.allocConsole = b
      cases debug <;> cases b <;>
        simp [hf, hcreate, hrun, hU, EnableHighDPISupport, ConfigureSecurity, ifdefDebug,
          Event.isCoUninitialize, List.countP_cons]
    · unfold wWinMain SetupDebugConsole
      generalize os.allocConsole = b
      cases debug <;> cases b <;>
        simp [hf, hcreate, hrun, hG, EnableHighDPISupport, ConfigureSecurity, ifdefDebug,
          Event.isGetMessage, List.countP_cons]

/-- Witness of C10 on `errorOS`, observed for two retrievals. -/
theorem error_result_keeps_running_witness :
    0 ≤ errorOS.hr ∧ errorOS.create = true ∧ (∀ n, (errorOS.messages n).ret = -1) ∧
    (wWinMain true errorOS 2 sampleParams).exit = none ∧
    (wWinMain true errorOS 2 sampleParams).trace.countP Event.isCoUninitialize = 0 ∧
    (wWinMain true errorOS 2 sampleParams).trace.countP Event.isGetMessage = 2 ∧
    messageLoop errorOS 2 0 errorOS.msg0 = (pumped errorOS 2, false) :=
  ⟨by decide, rfl, fun _ => rfl,
    (error_result_keeps_running true errorOS sampleParams (by decide) rfl).2 (fun _ => rfl) 2⟩

/-! ## Diagnostic and release builds -/

/-- C6: for the same outcomes, the build without `_DEBUG` returns the same exit
code as the build with it, and its trace is the diagnostic build's trace with
the diagnostic operations (console allocation, stream rebinding, marker writes,
closing delay) removed: the functional operations are the same, in the same
order, and every operation is either functional or diagnostic. -/
theorem debug_release_equivalent (os : OS) (fuel : Nat) (params : Params) :
    (wWinMain false os fuel params).exit = (wWinMain true os fuel params).exit ∧
    (wWinMain false os fuel params).trace =
      (wWinMain true os fuel params).trace.filter Event.isFunctional ∧
    (wWinMain true os fuel params).trace.filter Event.isFunctional =
      (wWinMain false os fuel params).trace.filter Event.isFunctional ∧
    (∀ e : Event, Event.isFunctional e = !Event.isDiagnostic e) := by
  have hF : (messageLoop os fuel 0 os.msg0).1.filter Event.isFunctional =
      (messageLoop os fuel 0 os.msg0).1 := by
    rw [List.filter_eq_self]
    intro e he
    have := messageLoop_events os fuel 0 os.msg0 e he
    revert this
    cases e <;> simp [Event.isMessageLoop, Event.isFunctional]
  have hD : ∀ e : Event, Event.isFunctional e = !Event.isDiagnostic e := by
    intro e
    cases e <;> rfl
  refine ⟨?_, ?_, ?_, hD⟩
  · unfold wWinMain
    generalize messageLoop os fuel 0 os.msg0 = L
    rcases L with ⟨lt, lb⟩
    generalize os.create = cr
    by_cases hf : os.hr < 0 <;> cases cr <;> cases lb <;> simp [FAILED, hf]
  · unfold wWinMain SetupDebugConsole
    generalize messageLoop os fuel 0 os.msg0 = L at hF ⊢
    rcases L with ⟨lt, lb⟩
    generalize os.allocConsole = b
    generalize os.create = cr
    simp only at hF
    by_cases hf : os.hr < 0 <;> cases b <;> cases cr <;> cases lb <;>
      simp [FAILED, hf, hF, EnableHighDPISupport, ConfigureSecurity, ifdefDebug,
        Event.isFunctional, List.filter_cons]
  · unfold wWinMain SetupDebugConsole
    generalize messageLoop os fuel 0 os.msg0 = L at hF ⊢
    rcases L with ⟨lt, lb⟩
    generalize os.allocConsole = b
    generalize os.create = cr
    simp only at hF
    by_cases hf : os.hr < 0 <;> cases b <;> cases cr <;> cases lb <;>
      simp [FAILED, hf, hF, EnableHighDPISupport, ConfigureSecurity, ifdefDebug,
        Event.isFunctional, List.filter_cons]


/-! ## Best-effort steps -/

/-- C7: replacing the results of `SetProcessDPIAware`, `AllocConsole`,
`SetDefaultDllDirectories` and `SetProcessDEPPolicy` by any others changes
neither the exit code nor the sequence of runtime-initialization, project,
window, message-loop and release operations; and when `AllocConsole` fails,
`SetupDebugConsole` makes no call but `AllocConsole` itself: it rebinds no
stream and writes no line. -/
theorem best_effort_no_failure_path (debug : Bool) (os : OS) (fuel : Nat) (params : Params)
    (a b c d : Bool) :
    (wWinMain debug (os.withBestEffort a b c d) fuel params).exit =
      (wWinMain debug os fuel params).exit ∧
    (wWinMain debug (os.withBestEffort a b c d) fuel params).trace.filter Event.isCore =
      (wWinMain debug os fuel params).trace.filter Event.isCore ∧
    SetupDebugConsole debug (os.withBestEffort a false c d) =
      ifdefDebug debug [.AllocConsole false] ∧
    (SetupDebugConsole debug (os.withBestEffort a false c d)).countP
      Event.isStreamRebinding = 0 ∧
    (SetupDebugConsole debug (os.withBestEffort a false c d)).countP
      Event.isDiagnosticWrite = 0 := by
  have hL := messageLoop_congr os (os.withBestEffort a b c d) rfl fuel 0 os.msg0
  refine ⟨?_, ?_, ?_, ?_, ?_⟩
  · unfold wWinMain
    simp only [OS.withBestEffort] at hL ⊢
    simp only [hL]
    generalize messageLoop os fuel 0 os.msg0 = L
    rcases L with ⟨lt, lb⟩
    generalize os.create = cr
    by_cases hf : os.hr < 0 <;> cases cr <;> cases lb <;> simp [FAILED, hf]
  · unfold wWinMain SetupDebugConsole GetCommandLineArguments
    simp only [OS.withBestEffort] at hL ⊢
    simp only [hL]
    generalize messageLoop os fuel 0 os.msg0 = L
    rcases L with ⟨lt, lb⟩
    generalize os.allocConsole = b0
    generalize os.create = cr
    by_cases hf : os.hr < 0 <;> cases debug <;> cases b <;> cases b0 <;> cases cr <;>
      cases lb <;>
      simp [FAILED, hf, EnableHighDPISupport, ConfigureSecurity, ifdefDebug,
        Event.isCore, Event.isFunctional, Event.isHardening, List.filter_cons]
  · cases debug <;> simp [SetupDebugConsole, ifdefDebug, OS.withBestEffort]
  · cases debug <;> simp [SetupDebugConsole, Event.isStreamRebinding, OS.withBestEffort]
  · cases debug <;> simp [SetupDebugConsole, Event.isDiagnosticWrite, OS.withBestEffort]

/-! ## Stage order -/

/-- C4 fails as stated: in the diagnostic build of `sampleOS` the console is
attached before `SetDefaultDllDirectories` and `SetProcessDEPPolicy` are called,
so not every hardening call comes before console attachment. -/
theorem hardening_before_console_fails :
    ¬ (AllBefore Event.isHardening Event.isConsoleAttachment
          (wWinMain true sampleOS 3 sampleParams).trace ∧
       AllBefore Event.isConsoleAttachment Event.isCoInitializeEx
          (wWinMain true sampleOS 3 sampleParams).trace ∧
       AllBefore Event.isCoInitializeEx Event.isCreate
          (wWinMain true sampleOS 3 sampleParams).trace) := by
  decide

theorem AllBefore_append_of_no_earlier (p q : Event → Bool) (l r : List Event)
    (hl : AllBefore p q l) (hr : ∀ e ∈ r, p e = false) : AllBefore p q (l ++ r) := by
  unfold AllBefore at hl ⊢
  rw [List.pairwise_append]
  exact ⟨hl, AllBefore_of_no_earlier p q r hr, fun _ _ b hb _ => hr b hb⟩

theorem AllBefore_append_of_no_later (p q : Event → Bool) (l r : List Event)
    (hl : ∀ e ∈ l, q e = false) (hr : AllBefore p q r) : AllBefore p q (l ++ r) := by
  unfold AllBefore at hr ⊢
  rw [List.pairwise_append]
  exact ⟨AllBefore_of_no_later p q l hl, hr, fun a ha _ _ hq => by simp [hl a ha] at hq⟩

theorem stage_prefix_order (debug : Bool) (os : OS) :
    AllBefore Event.isSetProcessDPIAware Event.isConsoleAttachment
      (EnableHighDPISupport os ++ SetupDebugConsole debug os ++ ConfigureSecurity os) ∧
    AllBefore Event.isConsoleAttachment Event.isConfigureSecurity
      (EnableHighDPISupport os ++ SetupDebugConsole debug os ++ ConfigureSecurity os) ∧
    (∀ e ∈ EnableHighDPISupport os ++ SetupDebugConsole debug os ++ ConfigureSecurity os,
      Event.isCoInitializeEx e = false ∧ Event.isCreate e = false) := by
  unfold SetupDebugConsole AllBefore
  generalize os.allocConsole = b
  cases debug <;> cases b <;>
    simp [EnableHighDPISupport, ConfigureSecurity, Event.isSetProcessDPIAware,
      Event.isConsoleAttachment, Event.isConfigureSecurity, Event.isCoInitializeEx,
      Event.isCreate]

theorem wWinMain_stages (debug : Bool) (os : OS) (fuel : Nat) (params : Params) :
    ∃ rest, (wWinMain debug os fuel params).trace =
      (EnableHighDPISupport os ++ SetupDebugConsole debug os ++ ConfigureSecurity os) ++
        (ifdefDebug debug [.cout "[DEBUG] Initializing COM..."] ++
          (.CoInitializeEx COINIT_APARTMENTTHREADED os.hr :: rest)) ∧
      (∀ e ∈ rest, Event.isHardening e = false) ∧
      (∀ e ∈ rest, Event.isConsoleAttachment e = false) ∧
      (∀ e ∈ rest, Event.isCoInitializeEx e = false) := by
  have hH := messageLoop_none Event.isHardening
    (by intro e; cases e <;> simp [Event.isMessageLoop, Event.isHardening]) os fuel 0 os.msg0
  have hA := messageLoop_none Event.isConsoleAttachment
    (by intro e; cases e <;> simp [Event.isMessageLoop, Event.isConsoleAttachment])
    os fuel 0 os.msg0
  have hI := messageLoop_none Event.isCoInitializeEx
    (by intro e; cases e <;> simp [Event.isMessageLoop, Event.isCoInitializeEx])
    os fuel 0 os.msg0
  unfold wWinMain
  simp only [List.append_assoc, List.singleton_append]
  split
  · refine ⟨_, rfl, ?_, ?_, ?_⟩ <;> cases debug <;>
      simp [ifdefDebug, Event.isHardening, Event.isConsoleAttachment, Event.isCoInitializeEx]
  · split
    · refine ⟨_, rfl, ?_, ?_, ?_⟩ <;> cases debug <;>
        simp [ifdefDebug, Event.isHardening, Event.isConsoleAttachment,
          Event.isCoInitializeEx]
    · split
      · refine ⟨_, rfl, ?_, ?_, ?_⟩ <;> cases debug <;>
          simp +contextual [ifdefDebug, Event.isHardening.eq_1, Event.isHardening.eq_2,
            Event.isHardening.eq_3, Event.isHardening.eq_4,
            Event.isConsoleAttachment.eq_1, Event.isConsoleAttachment.eq_2,
            Event.isConsoleAttachment.eq_3, Event.isConsoleAttachment.eq_4,
            Event.isConsoleAttachment.eq_5, Event.isConsoleAttachment.eq_6,
            Event.isCoInitializeEx.eq_1, Event.isCoInitializeEx.eq_2,
            or_imp, forall_and, hH, hA, hI]
      · refine ⟨_, rfl, ?_, ?_, ?_⟩ <;> cases debug <;>
          simp +contextual [ifdefDebug, Event.isHardening.eq_1, Event.isHardening.eq_2,
            Event.isHardening.eq_3, Event.isHardening.eq_4,
            Event.isConsoleAttachment.eq_1, Event.isConsoleAttachment.eq_2,
            Event.isConsoleAttachment.eq_3, Event.isConsoleAttachment.eq_4,
            Event.isConsoleAttachment.eq_5, Event.isConsoleAttachment.eq_6,
            Event.isCoInitializeEx.eq_1, Event.isCoInitializeEx.eq_2,
            or_imp, forall_and, hH, hA, hI]

theorem countP_stages (p : Event → Bool) (debug : Bool) (os : OS) (fuel : Nat)
    (params : Params) (hp : ∀ e, p e = true → (Event.isHardening e = true ∨
      Event.isConsoleAttachment e = true ∨ Event.isCoInitializeEx e = true)) :
    (wWinMain debug os fuel params).trace.countP p =
      (EnableHighDPISupport os ++ SetupDebugConsole debug os ++ ConfigureSecurity os ++
        [Event.CoInitializeEx COINIT_APARTMENTTHREADED os.hr]).countP p := by
  obtain ⟨rest, htr, hH, hA, hI⟩ := wWinMain_stages debug os fuel params
  have hrest : rest.countP p = 0 := by
    rw [List.countP_eq_zero]
    intro e he hpe
    rcases hp e hpe with h | h | h
    · rw [hH e he] at h; exact Bool.false_ne_true h
    · rw [hA e he] at h; exact Bool.false_ne_true h
    · rw [hI e he] at h; exact Bool.false_ne_true h
  have hdbg : (ifdefDebug debug [Event.cout "[DEBUG] Initializing COM..."]).countP p = 0 := by
    rw [List.countP_eq_zero]
    intro e he hpe
    have hc : e = Event.cout "[DEBUG] Initializing COM..." := by
      cases debug <;> simp [ifdefDebug] at he
      exact he
    subst hc
    rcases hp _ hpe with h | h | h <;> exact Bool.false_ne_true h
  rw [htr]
  simp only [List.countP_append, List.countP_cons, List.countP_nil, hrest, hdbg]
  omega

/-- C4 as amended: a run starts with the calls of `EnableHighDPISupport`,
then those of `SetupDebugConsole`, then those of `ConfigureSecurity`, and makes
no hardening or console-attachment call afterwards.  `SetProcessDPIAware` comes
before console attachment, console attachment before `SetDefaultDllDirectories`
and `SetProcessDEPPolicy`, all of these before `CoInitializeEx`, and
`CoInitializeEx` before `Create`; each hardening call and `CoInitializeEx` is
made exactly once; the build without `_DEBUG` attaches no console. -/
theorem stage_order (debug : Bool) (os : OS) (fuel : Nat) (params : Params) :
    (∃ rest, (wWinMain debug os fuel params).trace =
      EnableHighDPISupport os ++ SetupDebugConsole debug os ++ ConfigureSecurity os ++ rest ∧
      rest.countP Event.isHardening = 0 ∧ rest.countP Event.isConsoleAttachment = 0) ∧
    AllBefore Event.isSetProcessDPIAware Event.isConsoleAttachment
      (wWinMain debug os fuel params).trace ∧
    AllBefore Event.isConsoleAttachment Event.isConfigureSecurity
      (wWinMain debug os fuel params).trace ∧
    AllBefore Event.isHardening Event.isCoInitializeEx (wWinMain debug os fuel params).trace ∧
    AllBefore Event.isConsoleAttachment Event.isCoInitializeEx
      (wWinMain debug os fuel params).trace ∧
    AllBefore Event.isCoInitializeEx Event.isCreate (wWinMain debug os fuel params).trace ∧
    (wWinMain debug os fuel params).trace.countP Event.isSetProcessDPIAware = 1 ∧
    (wWinMain debug os fuel params).trace.countP Event.isConfigureSecurity = 2 ∧
    (wWinMain debug os fuel params).trace.countP Event.isCoInitializeEx = 1 ∧
    (wWinMain true os fuel params).trace.countP Event.isConsoleAttachment =
      (if os.allocConsole then 12 else 1) ∧
    (wWinMain false os fuel params).trace.countP Event.isConsoleAttachment = 0 := by
  obtain ⟨rest, htr, hH, hA, hI⟩ := wWinMain_stages debug os fuel params
  obtain ⟨o1, o2, o3⟩ := stage_prefix_order debug os
  have hdbg : ∀ e ∈ ifdefDebug debug [Event.cout "[DEBUG] Initializing COM..."],
      Event.isHardening e = false ∧ Event.isConsoleAttachment e = false ∧
      Event.isCreate e = false := by
    cases debug <;>
      simp [ifdefDebug, Event.isHardening, Event.isConsoleAttachment, Event.isCreate]
  have hRH : ∀ e ∈ ifdefDebug debug [Event.cout "[DEBUG] Initializing COM..."] ++
      (Event.CoInitializeEx COINIT_APARTMENTTHREADED os.hr :: rest),
      Event.isHardening e = false := by
    intro e he
    simp only [List.mem_append, List.mem_cons] at he
    rcases he with he | rfl | he
    · exact (hdbg e he).1
    · rfl
    · exact hH e he
  have hRA : ∀ e ∈ ifdefDebug debug [Event.cout "[DEBUG] Initializing COM..."] ++
      (Event.CoInitializeEx COINIT_APARTMENTTHREADED os.hr :: rest),
      Event.isConsoleAttachment e = false := by
    intro e he
    simp only [List.mem_append, List.mem_cons] at he
    rcases he with he | rfl | he
    · exact (hdbg e he).2.1
    · rfl
    · exact hA e he
  have hsub : ∀ e, Event.isHardening e = false → Event.isSetProcessDPIAware e = false := by
    intro e; cases e <;> simp [Event.isHardening, Event.isSetProcessDPIAware]
  refine ⟨⟨_, htr, List.countP_eq_zero.2 (by simpa using hRH),
    List.countP_eq_zero.2 (by simpa using hRA)⟩, ?_, ?_, ?_, ?_, ?_, ?_, ?_, ?_, ?_, ?_⟩
  · rw [htr]
    exact AllBefore_append_of_no_earlier _ _ _ _ o1 (fun e he => hsub e (hRH e he))
  · rw [htr]
    exact AllBefore_append_of_no_earlier _ _ _ _ o2 hRA
  · rw [htr]
    exact AllBefore_append_of_no_later _ _ _ _ (fun e he => (o3 e he).1)
      (AllBefore_of_no_earlier _ _ _ hRH)
  · rw [htr]
    exact AllBefore_append_of_no_later _ _ _ _ (fun e he => (o3 e he).1)
      (AllBefore_of_no_earlier _ _ _ hRA)
  · rw [htr]
    refine AllBefore_append_of_no_later _ _ _ _ (fun e he => (o3 e he).2)
      (AllBefore_append_of_no_later _ _ _ _ (fun e he => (hdbg e he).2.2) ?_)
    unfold AllBefore
    rw [List.pairwise_cons]
    exact ⟨fun _ _ h => absurd h (by simp [Event.isCreate]),
      AllBefore_of_no_earlier _ _ _ hI⟩
  · rw [countP_stages _ debug os fuel params
      (by intro e; cases e <;> simp [Event.isSetProcessDPIAware, Event.isHardening])]
    unfold SetupDebugConsole
    generalize os.allocConsole = b
    cases debug <;> cases b <;>
      simp [EnableHighDPISupport, ConfigureSecurity, Event.isSetProcessDPIAware,
        List.countP_cons]
  · rw [countP_stages _ debug os fuel params
      (by intro e; cases e <;> simp [Event.isConfigureSecurity, Event.isHardening])]
    unfold SetupDebugConsole
    generalize os.allocConsole = b
    cases debug <;> cases b <;>
      simp [EnableHighDPISupport, ConfigureSecurity, Event.isConfigureSecurity,
        List.countP_cons]
  · rw [countP_stages _ debug os fuel params (by intro e h; exact Or.inr (Or.inr h))]
    unfold SetupDebugConsole
    generalize os.allocConsole = b
    cases debug <;> cases b <;>
      simp [EnableHighDPISupport, ConfigureSecurity, Event.isCoInitializeEx,
        List.countP_cons]
  · rw [countP_stages _ true os fuel params (by intro e h; exact Or.inr (Or.inl h))]
    unfold SetupDebugConsole
    generalize os.allocConsole = b
    cases b <;>
      simp [EnableHighDPISupport, ConfigureSecurity, Event.isConsoleAttachment,
        List.countP_cons]
  · rw [countP_stages _ false os fuel params (by intro e h; exact Or.inr (Or.inl h))]
    simp [SetupDebugConsole, EnableHighDPISupport, ConfigureSecurity,
      Event.isConsoleAttachment, List.countP_cons]

end Reminest
